import Mathlib

/-!
# The chat widget of `static/js/main.js`

A shallow embedding of the submit handler and of `addMessage`, followed by the
properties of one submission cycle and of sequences of page events.

Conventions of the embedding.

* A JavaScript string is a Lean `String`. (JavaScript strings are UTF-16 and may
  hold lone surrogates, Lean strings cannot; nothing below looks inside a code
  unit pair.)
* A JSON number is kept as the decimal text that `Number::toString` gives for
  it: the handler observes a number only by rendering it.
* The page is explicit state (`World`). The handler is an `async` function: it
  runs up to an `await`, is parked in `World.pending`, and is resumed by a
  settlement input (`Input.fetchSettled`, `Input.jsonSettled`).
-/

namespace ScratchConverter

/-! ## JavaScript values -/

/-- A value produced by `response.json()`. In `obj`, the members are in the
order of the JSON text; a later member with the same key wins. -/
inductive Json where
  | null
  | bool (b : Bool)
  | num (text : String)
  | str (s : String)
  | arr (items : List Json)
  | obj (members : List (String × Json))

/-- A thrown value or a rejection reason. -/
inductive JsError where
  /-- the value of `new Error(message)` -/
  | error (message : String)
  /-- a `TypeError` raised by the engine -/
  | typeError
  /-- a DOM exception, by name -/
  | domException (name : String)
  /-- the reason a host promise (`fetch`, `response.json`) was rejected with -/
  | rejection (reason : String)
deriving DecidableEq

/-- The value of a JavaScript expression: `none` is `undefined`. -/
abbrev JsValue := Option Json

/-- Own-property test on a parsed JSON object. -/
def hasOwn (members : List (String × Json)) (key : String) : Bool :=
  members.any (fun m => m.1 == key)

/-- The property read `data[key]` for a key that no prototype defines (such as
`reply`). Reading a property of `null` throws; a primitive, an array or an
object without the key gives `undefined`. -/
def getProperty (data : Json) (key : String) : Except JsError JsValue :=
  match data with
  | .null => .error .typeError
  | .obj members => .ok (members.reverse.lookup key)
  | _ => .ok none

mutual
/-- The abstract operation `ToString` on a parsed JSON value. An array goes
through `Array.prototype.join`; an object goes through `Object.prototype.toString`
unless an own member `toString` (never callable in parsed JSON) shadows it, in
which case `OrdinaryToPrimitive` finds no usable method and throws. -/
def Json.toJsString : Json → Except JsError String
  | .null => .ok "null"
  | .bool b => .ok (if b then "true" else "false")
  | .num text => .ok text
  | .str s => .ok s
  | .arr items => (Json.joinItems items).map (fun l => ",".intercalate l)
  | .obj members => if hasOwn members "toString" then .error .typeError else .ok "[object Object]"
/-- The element strings that `Array.prototype.join` concatenates: `null` gives
the empty string, any other element its `ToString`. -/
def Json.joinItems : List Json → Except JsError (List String)
  | [] => .ok []
  | .null :: rest => (Json.joinItems rest).map (fun l => "" :: l)
  | x :: rest => do
      let a ← Json.toJsString x
      let b ← Json.joinItems rest
      pure (a :: b)
end

/-- Conversion of a value assigned to `textContent` (a nullable `DOMString`):
`undefined` and `null` become the empty text, anything else its `ToString`. -/
def toTextContent : JsValue → Except JsError String
  | none => .ok ""
  | some .null => .ok ""
  | some v => v.toJsString

/-- `WhiteSpace` and `LineTerminator` code points, the ones `trim` strips. -/
def isWhiteSpace (c : Char) : Bool :=
  let n := c.toNat
  n == 0x09 || n == 0x0A || n == 0x0B || n == 0x0C || n == 0x0D || n == 0x20
    || n == 0xA0 || n == 0x1680 || (0x2000 ≤ n && n ≤ 0x200A) || n == 0x2028
    || n == 0x2029 || n == 0x202F || n == 0x205F || n == 0x3000 || n == 0xFEFF

/-- `String.prototype.trim`. -/
def trim (s : String) : String :=
  ⟨((s.data.dropWhile isWhiteSpace).reverse.dropWhile isWhiteSpace).reverse⟩

/-! ## `JSON.stringify({ message: userMessage })` -/

/-- Lower-case hexadecimal digit. -/
def hexDigit (n : Nat) : Char :=
  if n < 10 then Char.ofNat (48 + n) else Char.ofNat (87 + n)

/-- One code point inside `QuoteJSONString`. -/
def quoteJSONChar (c : Char) : List Char :=
  let n := c.toNat
  if n = 0x08 then [Char.ofNat 92, 'b']
  else if n = 0x09 then [Char.ofNat 92, 't']
  else if n = 0x0A then [Char.ofNat 92, 'n']
  else if n = 0x0C then [Char.ofNat 92, 'f']
  else if n = 0x0D then [Char.ofNat 92, 'r']
  else if n = 0x22 then [Char.ofNat 92, Char.ofNat 34]
  else if n = 0x5C then [Char.ofNat 92, Char.ofNat 92]
  else if n < 0x20 then
    [Char.ofNat 92, 'u', '0', '0', hexDigit (n / 16), hexDigit (n % 16)]
  else [c]

/-- `QuoteJSONString`. -/
def quoteJSONString (s : String) : String :=
  ⟨Char.ofNat 34 :: (s.data.flatMap quoteJSONChar ++ [Char.ofNat 34])⟩

/-- `JSON.stringify({ message: userMessage })`. -/
def stringifyMessage (userMessage : String) : String :=
  "\x7b\"message\":" ++ quoteJSONString userMessage ++ "\x7d"

/-! ## Reading a request body back

A reader for the string literals of JSON, used to say which text a request body
carries. -/

/-- Value of a hexadecimal digit. -/
def hexValue (c : Char) : Option Nat :=
  let n := c.toNat
  if 48 ≤ n ∧ n ≤ 57 then some (n - 48)
  else if 97 ≤ n ∧ n ≤ 102 then some (n - 87)
  else if 65 ≤ n ∧ n ≤ 70 then some (n - 55)
  else none

/-- The character a two-character JSON escape stands for, by its second
character. -/
def unescapeChar (c : Char) : Option Char :=
  let n := c.toNat
  if n = 98 then some (Char.ofNat 0x08)
  else if n = 116 then some (Char.ofNat 0x09)
  else if n = 110 then some (Char.ofNat 0x0A)
  else if n = 102 then some (Char.ofNat 0x0C)
  else if n = 114 then some (Char.ofNat 0x0D)
  else if n = 34 ∨ n = 92 ∨ n = 47 then some c
  else none

/-- Reads a JSON string literal from just after its opening quote: the text it
denotes and what follows its closing quote. -/
def readJSONChars : List Char → Option (List Char × List Char)
  | [] => none
  | c :: rest =>
    if c.toNat = 34 then some ([], rest)
    else if c.toNat = 92 then
      match rest with
      | [] => none
      | e :: rest =>
        if e.toNat = 117 then
          match rest with
          | h₃ :: h₂ :: h₁ :: h₀ :: rest =>
            match hexValue h₃, hexValue h₂, hexValue h₁, hexValue h₀, readJSONChars rest with
            | some a, some b, some c, some d, some (text, tail) =>
              let n := 4096 * a + 256 * b + 16 * c + d
              if n.isValidChar then some (Char.ofNat n :: text, tail) else none
            | _, _, _, _, _ => none
          | _ => none
        else
          match unescapeChar e, readJSONChars rest with
          | some x, some (text, tail) => some (x :: text, tail)
          | _, _ => none
    else if c.toNat < 32 then none
    else
      match readJSONChars rest with
      | some (text, tail) => some (c :: text, tail)
      | none => none

/-- Reads a body that is a JSON object with the single member `message`, a
string, written without blanks: gives the text of that member. -/
def readMessageBody (body : String) : Option String :=
  let opening := "\x7b\"message\":\"".data
  if body.data.take opening.length = opening then
    match readJSONChars (body.data.drop opening.length) with
    | some (text, [close]) => if close.toNat = 125 then some ⟨text⟩ else none
    | _ => none
  else none

/-! ## The page -/

/-- A `div` made by `addMessage`. -/
structure Element where
  classList : List String
  textContent : String
deriving DecidableEq

/-- ASCII whitespace, which a class token may not contain. -/
def isAsciiWhitespace (c : Char) : Bool :=
  let n := c.toNat
  n == 0x09 || n == 0x0A || n == 0x0C || n == 0x0D || n == 0x20

/-- `DOMTokenList.add`: every token is validated first, then each one not yet
present is appended. -/
def classListAdd (classList tokens : List String) : Except JsError (List String) :=
  if tokens.any (fun t => t == "") then .error (.domException "SyntaxError")
  else if tokens.any (fun t => t.data.any isAsciiWhitespace) then
    .error (.domException "InvalidCharacterError")
  else .ok (tokens.foldl (fun acc t => if acc.contains t then acc else acc ++ [t]) classList)

/-- `#chat-container`: its children, and whether it is scrolled to its end. -/
structure ChatContainer where
  children : List Element
  scrolledToBottom : Bool
deriving DecidableEq

/-- `#message-input`. -/
structure MessageInput where
  value : String
deriving DecidableEq

/-- `#send-button`. -/
structure SendButton where
  disabled : Bool
deriving DecidableEq

/-- Which element has input focus. -/
inductive Focus where
  | messageInput
  | sendButton
  | elsewhere
deriving DecidableEq

/-- The request `fetch` is called with. -/
structure Request where
  url : String
  method : String
  headers : List (String × String)
  body : String
deriving DecidableEq

/-- The response `fetch` resolves with; the body arrives through `json()`. -/
structure Response where
  status : Nat
deriving DecidableEq

/-- `response.ok`: the status is in the range 200 to 299. -/
def Response.ok (response : Response) : Bool :=
  200 ≤ response.status && response.status ≤ 299

/-- The `await` a handler invocation is parked at. -/
inductive Phase where
  /-- `await fetch(...)` -/
  | fetch
  /-- `await response.json()` -/
  | json
deriving DecidableEq

/-- A suspended invocation of the submit handler with its captured local. -/
structure Task where
  userMessage : String
  phase : Phase
deriving DecidableEq

/-- Everything the handler reads or writes. -/
structure World where
  chatContainer : ChatContainer
  messageInput : MessageInput
  sendButton : SendButton
  activeElement : Focus
  /-- calls of `console.error`, oldest first -/
  console : List (String × JsError)
  /-- calls of `fetch`, oldest first -/
  requests : List Request
  /-- handler invocations parked at an `await`, oldest first -/
  pending : List Task
  /-- errors that left a handler invocation (rejections of its promise) -/
  uncaught : List JsError
deriving DecidableEq

/-- The submit event. -/
structure SubmitEvent where
  defaultPrevented : Bool
deriving DecidableEq

/-! ## `addMessage` and the submit handler -/

/-- The fixed text of the `catch` block. -/
def fallbackText : String := "Entschuldigung, es ist ein Fehler aufgetreten."

/-- `addMessage(text, sender)`, lines 40 to 46. An exception leaves before
`appendChild`, so the page is unchanged then. -/
def addMessage (text : JsValue) (sender : String) (w : World) : Except JsError Unit × World :=
  -- const messageElement = document.createElement('div');
  let messageElement : Element := { classList := [], textContent := "" }
  -- messageElement.classList.add('message', `${sender}-message`);
  match classListAdd messageElement.classList ["message", sender ++ "-message"] with
  | .error e => (.error e, w)
  | .ok classList =>
    let messageElement := { messageElement with classList := classList }
    -- messageElement.textContent = text;
    match toTextContent text with
    | .error e => (.error e, w)
    | .ok content =>
      let messageElement := { messageElement with textContent := content }
      -- chatContainer.appendChild(messageElement);
      let w := { w with chatContainer.children := w.chatContainer.children ++ [messageElement] }
      -- chatContainer.scrollTop = chatContainer.scrollHeight;
      let w := { w with chatContainer.scrolledToBottom := true }
      (.ok (), w)

/-- The argument of `fetch`, lines 16 to 22. -/
def chatRequest (userMessage : String) : Request :=
  { url := "chat"
    method := "POST"
    headers := [("Content-Type", "application/json")]
    body := stringifyMessage userMessage }

/-- The submit handler from its start to its first `await` (lines 7 to 16), or
to its early `return`. -/
def onSubmit (e : SubmitEvent) (w : World) : SubmitEvent × World :=
  -- e.preventDefault();
  let e := { e with defaultPrevented := true }
  -- const userMessage = messageInput.value.trim();
  let userMessage := trim w.messageInput.value
  -- if (!userMessage) return;
  if userMessage = "" then (e, w)
  else
    -- addMessage(userMessage, 'user');
    match addMessage (some (.str userMessage)) "user" w with
    | (.error err, w) => (e, { w with uncaught := w.uncaught ++ [err] })
    | (.ok (), w) =>
      -- messageInput.value = '';
      let w := { w with messageInput.value := "" }
      -- sendButton.disabled = true;
      let w := { w with sendButton.disabled := true }
      -- await fetch('chat', ...)
      let w := { w with requests := w.requests ++ [chatRequest userMessage] }
      (e, { w with pending := w.pending ++ [{ userMessage := userMessage, phase := .fetch }] })

/-- How a stretch of the `try` block ends. -/
inductive Signal where
  /-- the block ran to its end -/
  | completed
  /-- the block reached an `await` -/
  | suspended (phase : Phase)
deriving DecidableEq

/-- The `try` block from the settlement of `fetch` on (lines 16 to 28). -/
def afterFetch (settled : Except JsError Response) (w : World) : Except JsError Signal × World :=
  match settled with
  | .error e => (.error e, w)
  | .ok response =>
    -- if (!response.ok) throw new Error(`HTTP error! status: ${response.status}`);
    if !response.ok then
      (.error (.error ("HTTP error! status: " ++ toString response.status)), w)
    else
      -- await response.json()
      (.ok (.suspended .json), w)

/-- The `try` block from the settlement of `response.json()` on (lines 28, 29). -/
def afterJson (settled : Except JsError Json) (w : World) : Except JsError Signal × World :=
  match settled with
  | .error e => (.error e, w)
  | .ok data =>
    -- addMessage(data.reply, 'ai');
    match getProperty data "reply" with
    | .error e => (.error e, w)
    | .ok reply =>
      match addMessage reply "ai" w with
      | (.error e, w) => (.error e, w)
      | (.ok (), w) => (.ok .completed, w)

/-- The `catch` block, lines 31 to 33. -/
def catchBlock (error : JsError) (w : World) : Except JsError Unit × World :=
  -- console.error('Fehler beim Senden der Nachricht:', error);
  let w := { w with console := w.console ++ [("Fehler beim Senden der Nachricht:", error)] }
  -- addMessage('Entschuldigung, es ist ein Fehler aufgetreten.', 'ai');
  addMessage (some (.str fallbackText)) "ai" w

/-- The `finally` block, lines 34 to 37. -/
def finallyBlock (w : World) : World :=
  -- sendButton.disabled = false;
  let w := { w with sendButton.disabled := false }
  -- messageInput.focus();
  { w with activeElement := .messageInput }

/-- The `try` / `catch` / `finally` statement around a stretch of the `try`
block: a stretch that reaches an `await` stays inside the `try`; a normal end
runs `finally`; a throw runs `catch` and then `finally`, and a throw of the
`catch` block leaves the statement after `finally`. -/
def tryCatchFinally (r : Except JsError Signal × World) : Except JsError Signal × World :=
  match r with
  | (.ok (.suspended phase), w) => (.ok (.suspended phase), w)
  | (.ok .completed, w) => (.ok .completed, finallyBlock w)
  | (.error e, w) =>
    match catchBlock e w with
    | (.ok (), w) => (.ok .completed, finallyBlock w)
    | (.error e', w) => (.error e', finallyBlock w)

/-! ## Page events -/

/-- What can happen to the page. A settlement names the parked invocation by
its position in `World.pending`. -/
inductive Input where
  /-- the user edits the text field -/
  | type (text : String)
  /-- a submit event is dispatched on the form -/
  | submit
  /-- the promise of `fetch` settles -/
  | fetchSettled (i : Nat) (settled : Except JsError Response)
  /-- the promise of `response.json()` settles -/
  | jsonSettled (i : Nat) (settled : Except JsError Json)

/-- Book-keeping after a parked invocation ran one more stretch. -/
def resume (i : Nat) (task : Task) (r : Except JsError Signal × World) : World :=
  match r with
  | (.ok (.suspended phase), w) => { w with pending := w.pending.set i { task with phase := phase } }
  | (.ok .completed, w) => { w with pending := w.pending.eraseIdx i }
  | (.error e, w) => { w with pending := w.pending.eraseIdx i, uncaught := w.uncaught ++ [e] }

/-- One page event. `none`: the input names no invocation parked at that `await`. -/
def step (w : World) : Input → Option World
  | .type text => some { w with messageInput.value := text }
  | .submit => some (onSubmit { defaultPrevented := false } w).2
  | .fetchSettled i settled =>
    match w.pending.get? i with
    | some task =>
      if task.phase = .fetch then some (resume i task (tryCatchFinally (afterFetch settled w)))
      else none
    | none => none
  | .jsonSettled i settled =>
    match w.pending.get? i with
    | some task =>
      if task.phase = .json then some (resume i task (tryCatchFinally (afterJson settled w)))
      else none
    | none => none

/-- A sequence of page events. -/
def run (w : World) : List Input → Option World
  | [] => some w
  | i :: rest => (step w i).bind (fun w' => run w' rest)

/-- How the request of one submission turns out. -/
inductive Outcome where
  /-- `fetch` rejects (network failure) -/
  | fetchRejected (e : JsError)
  /-- `fetch` resolves; `body` is how `response.json()` settles if it is called -/
  | responded (response : Response) (body : Except JsError Json)

/-- The settlements that make up `outcome` for the invocation at position `i`. -/
def settlements (i : Nat) : Outcome → List Input
  | .fetchRejected e => [.fetchSettled i (.error e)]
  | .responded response body =>
    if response.ok then [.fetchSettled i (.ok response), .jsonSettled i body]
    else [.fetchSettled i (.ok response)]

/-- One submission cycle: the user enters `raw`, the form is submitted, and the
request of this submission turns out as `outcome`. `none`: no request was
issued, so there is nothing to settle. -/
def submissionCycle (raw : String) (outcome : Outcome) (w : World) : Option World :=
  run w (.type raw :: .submit :: settlements w.pending.length outcome)

/-! ## Vocabulary of the properties -/

/-- The transcript entry that shows `text` for `sender`: the element
`addMessage` builds, with classes `message` and `<sender>-message`. -/
def messageElement (text sender : String) : Element :=
  { classList := ["message", sender ++ "-message"], textContent := text }

/-- A page with nothing on it: the control enabled, no request in flight. -/
def emptyWorld : World :=
  { chatContainer := { children := [], scrolledToBottom := false }
    messageInput := { value := "" }
    sendButton := { disabled := false }
    activeElement := .elsewhere
    console := []
    requests := []
    pending := []
    uncaught := [] }

/-- The idle state: the control is enabled and no handler invocation is parked. -/
def Idle (w : World) : Prop :=
  w.sendButton.disabled = false ∧ w.pending = []

/-- The failures of a request: `fetch` rejects, the status is not a success
status, or `response.json()` rejects. -/
def Outcome.isFailure : Outcome → Bool
  | .fetchRejected _ => true
  | .responded response body =>
    !response.ok || (match body with
      | .error _ => true
      | .ok _ => false)

/-- The browser does not dispatch a submit event through a disabled submit
control: every `submit` of the sequence meets the control enabled. -/
def gated (w : World) : List Input → Bool
  | [] => true
  | i :: rest =>
    (match i with
      | .submit => !w.sendButton.disabled
      | _ => true)
    && (match step w i with
      | some w' => gated w' rest
      | none => true)

/-- At most one invocation is parked, and the control is disabled exactly while
one is. -/
def SingleFlight (w : World) : Prop :=
  (w.pending = [] ∧ w.sendButton.disabled = false)
    ∨ (∃ task, w.pending = [task] ∧ w.sendButton.disabled = true)

/-- What the `try` block makes of an outcome: the text it hands to the page, or
the error it throws. -/
def Outcome.shown : Outcome → Except JsError String
  | .fetchRejected e => .error e
  | .responded response body =>
    if !response.ok then .error (.error ("HTTP error! status: " ++ toString response.status))
    else
      match body with
      | .error e => .error e
      | .ok data =>
        match getProperty data "reply" with
        | .error e => .error e
        | .ok reply => toTextContent reply

/-- The page after a cycle that started from `w` with trimmed text `t`, when the
`try` block came to `r`. -/
def settledWorld (w : World) (t : String) (r : Except JsError String) : World :=
  { chatContainer :=
      { children := w.chatContainer.children ++
          [messageElement t "user",
           messageElement (match r with
             | .ok text => text
             | .error _ => fallbackText) "ai"]
        scrolledToBottom := true }
    messageInput := { value := "" }
    sendButton := { disabled := false }
    activeElement := .messageInput
    console := w.console ++ (match r with
      | .ok _ => []
      | .error e => [("Fehler beim Senden der Nachricht:", e)])
    requests := w.requests ++ [chatRequest t]
    pending := w.pending
    uncaught := w.uncaught }

end ScratchConverter

/-! ## Lemmas on the embedding -/

namespace ScratchConverter

/-- The class list of a user entry. -/
theorem classListAdd_user :
    classListAdd [] ["message", "user" ++ "-message"] = .ok ["message", "user" ++ "-message"] := by
  rfl

/-- The class list of an ai entry. -/
theorem classListAdd_ai :
    classListAdd [] ["message", "ai" ++ "-message"] = .ok ["message", "ai" ++ "-message"] := by
  rfl

/-- `addMessage` with a string for the sender user appends the user entry. -/
theorem addMessage_user (t : String) (w : World) :
    addMessage (some (.str t)) "user" w =
      (.ok (), { w with chatContainer :=
        { children := w.chatContainer.children ++ [messageElement t "user"]
          scrolledToBottom := true } }) := by
  simp only [addMessage, classListAdd_user, toTextContent, Json.toJsString, messageElement]

/-- `addMessage` for the sender ai appends the ai entry when the text converts. -/
theorem addMessage_ai_ok (v : JsValue) (text : String) (w : World)
    (h : toTextContent v = .ok text) :
    addMessage v "ai" w =
      (.ok (), { w with chatContainer :=
        { children := w.chatContainer.children ++ [messageElement text "ai"]
          scrolledToBottom := true } }) := by
  simp only [addMessage, classListAdd_ai, h, messageElement]

/-- `addMessage` for the sender ai leaves the page as it is when the text does not convert. -/
theorem addMessage_ai_error (v : JsValue) (e : JsError) (w : World)
    (h : toTextContent v = .error e) :
    addMessage v "ai" w = (.error e, w) := by
  simp only [addMessage, classListAdd_ai, h]

/-- The `catch` block logs the error and appends the fallback entry; it does not throw. -/
theorem catchBlock_eq (e : JsError) (w : World) :
    catchBlock e w =
      (.ok (), { w with
        chatContainer :=
          { children := w.chatContainer.children ++ [messageElement fallbackText "ai"]
            scrolledToBottom := true }
        console := w.console ++ [("Fehler beim Senden der Nachricht:", e)] }) := by
  simp only [catchBlock]
  rw [addMessage_ai_ok _ fallbackText _ (by simp [toTextContent, Json.toJsString])]

/-- The page at the first `await` of the handler. -/
theorem onSubmit_of_trim_ne (e : SubmitEvent) (w : World)
    (h : trim w.messageInput.value ≠ "") :
    (onSubmit e w).2 =
      { w with
        chatContainer :=
          { children := w.chatContainer.children ++
              [messageElement (trim w.messageInput.value) "user"]
            scrolledToBottom := true }
        messageInput := { value := "" }
        sendButton := { disabled := true }
        requests := w.requests ++ [chatRequest (trim w.messageInput.value)]
        pending := w.pending ++ [{ userMessage := trim w.messageInput.value, phase := .fetch }] } := by
  simp only [onSubmit, h, if_false, addMessage_user]

/-- A character is determined by its code point. -/
theorem char_eq_of_toNat (c : Char) (n : Nat) (h : c.toNat = n) : c = Char.ofNat n := by
  subst h
  exact (Char.ofNat_toNat c).symm

/-- Both hexadecimal digits of a code point below 32 read back. -/
theorem hex_low (n : Nat) (h : n < 32) :
    hexValue (hexDigit (n / 16)) = some (n / 16) ∧ hexValue (hexDigit (n % 16)) = some (n % 16) := by
  interval_cases n <;> decide

/-- Reading a two-character escape. -/
theorem read_escape (e x : Char) (rest text tail : List Char) (hu : e.toNat ≠ 117)
    (hx : unescapeChar e = some x) (h : readJSONChars rest = some (text, tail)) :
    readJSONChars (Char.ofNat 92 :: e :: rest) = some (x :: text, tail) := by
  rw [readJSONChars.eq_def]
  have h92 : (Char.ofNat 92).toNat = 92 := by decide
  simp [h92, hu, hx, h]

/-- Reading a character that stands for itself. -/
theorem read_plain (c : Char) (rest text tail : List Char) (h1 : c.toNat ≠ 34)
    (h2 : c.toNat ≠ 92) (h3 : ¬ c.toNat < 32) (h : readJSONChars rest = some (text, tail)) :
    readJSONChars (c :: rest) = some (c :: text, tail) := by
  rw [readJSONChars.eq_def]
  simp [h1, h2, h3, h]

/-- Reading the six-character escape of a code point below 32. -/
theorem read_unicode (n : Nat) (hn : n < 32) (rest text tail : List Char)
    (h : readJSONChars rest = some (text, tail)) :
    readJSONChars (Char.ofNat 92 :: 'u' :: '0' :: '0' :: hexDigit (n / 16) :: hexDigit (n % 16) :: rest)
      = some (Char.ofNat n :: text, tail) := by
  rw [readJSONChars.eq_def]
  have h92 : (Char.ofNat 92).toNat = 92 := by decide
  have hu : ('u' : Char).toNat = 117 := by decide
  have h0 : hexValue '0' = some 0 := by decide
  have hv : (n / 16 * 16 + n % 16) = n := by omega
  have hvalid : n.isValidChar := by
    left
    omega
  simp [h92, hu, h0, (hex_low n hn).1, (hex_low n hn).2, h]
  have hv' : 16 * (n / 16) + n % 16 = n := by omega
  rw [hv']
  exact ⟨hvalid, rfl⟩

/-- Reading what `quoteJSONChar` wrote gives the character back. -/
theorem readJSONChars_quote_cons (c : Char) (rest text tail : List Char)
    (h : readJSONChars rest = some (text, tail)) :
    readJSONChars (quoteJSONChar c ++ rest) = some (c :: text, tail) := by
  unfold quoteJSONChar
  simp only
  split_ifs with h1 h2 h3 h4 h5 h6 h7 h8
  · rw [char_eq_of_toNat c _ h1]; exact read_escape _ _ _ _ _ (by decide) (by decide) h
  · rw [char_eq_of_toNat c _ h2]; exact read_escape _ _ _ _ _ (by decide) (by decide) h
  · rw [char_eq_of_toNat c _ h3]; exact read_escape _ _ _ _ _ (by decide) (by decide) h
  · rw [char_eq_of_toNat c _ h4]; exact read_escape _ _ _ _ _ (by decide) (by decide) h
  · rw [char_eq_of_toNat c _ h5]; exact read_escape _ _ _ _ _ (by decide) (by decide) h
  · rw [char_eq_of_toNat c _ h6]; exact read_escape _ _ _ _ _ (by decide) (by decide) h
  · rw [char_eq_of_toNat c _ h7]; exact read_escape _ _ _ _ _ (by decide) (by decide) h
  · have := read_unicode c.toNat h8 rest text tail h
    rw [Char.ofNat_toNat] at this
    exact this
  · exact read_plain c rest text tail h6 h7 h8 h

/-- Reading what `QuoteJSONString` wrote gives the text back. -/
theorem readJSONChars_quote (l tail : List Char) :
    readJSONChars (l.flatMap quoteJSONChar ++ Char.ofNat 34 :: tail) = some (l, tail) := by
  induction l with
  | nil =>
    rw [readJSONChars.eq_def]
    have h34 : (Char.ofNat 34).toNat = 34 := by decide
    simp [h34]
  | cons c l ih =>
    rw [List.flatMap_cons, List.append_assoc]
    exact readJSONChars_quote_cons c _ l tail ih

/-- The characters of the request body. -/
theorem stringifyMessage_data (t : String) :
    (stringifyMessage t).data
      = "\x7b\"message\":\"".data ++ (t.data.flatMap quoteJSONChar ++ Char.ofNat 34 :: [Char.ofNat 125]) := by
  simp [stringifyMessage, quoteJSONString, String.data_append]

/-- The request body reads back as its message. -/
theorem readMessageBody_stringifyMessage (t : String) :
    readMessageBody (stringifyMessage t) = some t := by
  unfold readMessageBody
  simp only [stringifyMessage_data]
  rw [List.take_left', List.drop_left', readJSONChars_quote]
  · simp
  · rfl
  · rfl

/-- Erasing the last position of a list with one more element. -/
theorem eraseIdx_concat_length {α : Type} (l : List α) (a : α) :
    (l ++ [a]).eraseIdx l.length = l := by
  rw [List.eraseIdx_append_of_length_le (Nat.le_refl _)]
  simp

/-- The page after one submission cycle, in closed form. -/
theorem submissionCycle_eq (raw : String) (o : Outcome) (w : World) (h : trim raw ≠ "") :
    submissionCycle raw o w = some (settledWorld w (trim raw) o.shown) := by
  have hs := onSubmit_of_trim_ne ⟨false⟩ { w with messageInput.value := raw } h
  cases o with
  | fetchRejected e =>
    simp [submissionCycle, settlements, run, step, hs, afterFetch, tryCatchFinally,
      catchBlock_eq, resume, eraseIdx_concat_length, finallyBlock, settledWorld, Outcome.shown]
  | responded response body =>
    by_cases hok : response.ok = true
    · cases body with
      | error e =>
        simp [submissionCycle, settlements, run, step, hs, afterFetch, afterJson, tryCatchFinally,
          catchBlock_eq, resume, eraseIdx_concat_length, finallyBlock, settledWorld, Outcome.shown, hok]
      | ok data =>
        cases hp : getProperty data "reply" with
        | error e =>
          simp [submissionCycle, settlements, run, step, hs, afterFetch, afterJson,
            tryCatchFinally, catchBlock_eq, resume, eraseIdx_concat_length, finallyBlock, settledWorld, Outcome.shown,
            hok, hp]
        | ok reply =>
          cases ht : toTextContent reply with
          | error e =>
            simp [submissionCycle, settlements, run, step, hs, afterFetch, afterJson,
              tryCatchFinally, catchBlock_eq, resume, eraseIdx_concat_length, finallyBlock, settledWorld, Outcome.shown,
              hok, hp, ht, addMessage_ai_error _ _ _ ht]
          | ok text =>
            simp [submissionCycle, settlements, run, step, hs, afterFetch, afterJson,
              tryCatchFinally, catchBlock_eq, resume, eraseIdx_concat_length, finallyBlock, settledWorld, Outcome.shown,
              hok, hp, ht, addMessage_ai_ok _ _ _ ht]
    · simp [submissionCycle, settlements, run, step, hs, afterFetch, tryCatchFinally,
        catchBlock_eq, resume, eraseIdx_concat_length, finallyBlock, settledWorld, Outcome.shown, hok]

/-- The settlement of `fetch` either parks the invocation at `response.json()`
with the page as it is, or ends it through `finally`. -/
theorem tryCatchFinally_afterFetch (settled : Except JsError Response) (w : World) :
    tryCatchFinally (afterFetch settled w) = (.ok (.suspended .json), w)
    ∨ ∃ w', tryCatchFinally (afterFetch settled w) = (.ok .completed, w')
        ∧ w'.pending = w.pending ∧ w'.requests = w.requests ∧ w'.uncaught = w.uncaught
        ∧ w'.sendButton.disabled = false ∧ w'.activeElement = .messageInput := by
  cases settled with
  | error e =>
    right
    simp only [afterFetch, tryCatchFinally, catchBlock_eq]
    exact ⟨_, rfl, rfl, rfl, rfl, rfl, rfl⟩
  | ok response =>
    by_cases hok : response.ok = true
    · left
      simp [afterFetch, tryCatchFinally, hok]
    · right
      simp only [afterFetch, hok, tryCatchFinally, catchBlock_eq]
      exact ⟨_, rfl, rfl, rfl, rfl, rfl, rfl⟩

/-- The settlement of `response.json()` ends the invocation through `finally`. -/
theorem tryCatchFinally_afterJson (settled : Except JsError Json) (w : World) :
    ∃ w', tryCatchFinally (afterJson settled w) = (.ok .completed, w')
      ∧ w'.pending = w.pending ∧ w'.requests = w.requests ∧ w'.uncaught = w.uncaught
      ∧ w'.sendButton.disabled = false ∧ w'.activeElement = .messageInput := by
  cases settled with
  | error e =>
    simp only [afterJson, tryCatchFinally, catchBlock_eq]
    exact ⟨_, rfl, rfl, rfl, rfl, rfl, rfl⟩
  | ok data =>
    cases hp : getProperty data "reply" with
    | error e =>
      simp only [afterJson, hp, tryCatchFinally, catchBlock_eq]
      exact ⟨_, rfl, rfl, rfl, rfl, rfl, rfl⟩
    | ok reply =>
      cases ht : toTextContent reply with
      | error e =>
        simp only [afterJson, hp, addMessage_ai_error _ _ _ ht, tryCatchFinally, catchBlock_eq]
        exact ⟨_, rfl, rfl, rfl, rfl, rfl, rfl⟩
      | ok text =>
        simp only [afterJson, hp, addMessage_ai_ok _ _ _ ht, tryCatchFinally]
        exact ⟨_, rfl, rfl, rfl, rfl, rfl, rfl⟩

/-- The handler parks at most one more invocation and removes none. -/
theorem onSubmit_pending_length (e : SubmitEvent) (w : World) :
    w.pending.length ≤ (onSubmit e w).2.pending.length := by
  by_cases ht : trim w.messageInput.value = ""
  · simp [onSubmit, ht]
  · rw [onSubmit_of_trim_ne e w ht]
    simp

/-- An event that ends a parked invocation leaves the control enabled and the
focus on the text field. -/
theorem step_end_enabled (w w' : World) (i : Input) (hstep : step w i = some w')
    (hlt : w'.pending.length < w.pending.length) :
    w'.sendButton.disabled = false ∧ w'.activeElement = .messageInput := by
  cases i with
  | type text =>
    simp only [step, Option.some.injEq] at hstep
    subst hstep
    exact absurd hlt (Nat.lt_irrefl _)
  | submit =>
    simp only [step, Option.some.injEq] at hstep
    subst hstep
    exact absurd hlt (Nat.not_lt.mpr (onSubmit_pending_length _ w))
  | fetchSettled n settled =>
    cases hget : w.pending[n]? with
    | none => simp [step, hget] at hstep
    | some task =>
      by_cases hph : task.phase = .fetch
      · simp only [step, List.get?_eq_getElem?, hget, hph, if_true, Option.some.injEq] at hstep
        rcases tryCatchFinally_afterFetch settled w with hs | ⟨v, hs, _, _, _, hvd, hvf⟩
        · rw [hs] at hstep
          subst hstep
          simp [resume] at hlt
        · rw [hs] at hstep
          subst hstep
          exact ⟨hvd, hvf⟩
      · simp [step, hget, hph] at hstep
  | jsonSettled n settled =>
    cases hget : w.pending[n]? with
    | none => simp [step, hget] at hstep
    | some task =>
      by_cases hph : task.phase = .json
      · simp only [step, List.get?_eq_getElem?, hget, hph, if_true, Option.some.injEq] at hstep
        obtain ⟨v, hs, _, _, _, hvd, hvf⟩ := tryCatchFinally_afterJson settled w
        rw [hs] at hstep
        subst hstep
        exact ⟨hvd, hvf⟩
      · simp [step, hget, hph] at hstep

/-- One event that respects the disabled control keeps `SingleFlight`, and
issues no request while one is pending. -/
theorem singleFlight_step (w w' : World) (i : Input) (hinv : SingleFlight w)
    (hg : gated w [i] = true) (hstep : step w i = some w') :
    SingleFlight w' ∧ (w.pending ≠ [] → w'.requests = w.requests) := by
  cases i with
  | type text =>
    simp only [step, Option.some.injEq] at hstep
    subst hstep
    exact ⟨hinv, fun _ => rfl⟩
  | submit =>
    simp only [step, Option.some.injEq] at hstep
    have hen : w.sendButton.disabled = false := by
      simp only [gated, Bool.and_eq_true, Bool.not_eq_true'] at hg
      exact hg.1
    have hp : w.pending = [] := by
      rcases hinv with ⟨hp, _⟩ | ⟨task, _, hd⟩
      · exact hp
      · rw [hen] at hd
        exact Bool.noConfusion hd
    by_cases ht : trim w.messageInput.value = ""
    · have : w' = w := by
        rw [← hstep]
        simp [onSubmit, ht]
      subst this
      exact ⟨hinv, fun hne => absurd hp hne⟩
    · rw [onSubmit_of_trim_ne _ _ ht] at hstep
      subst hstep
      refine ⟨Or.inr ⟨{ userMessage := trim w.messageInput.value, phase := .fetch }, ?_, rfl⟩,
        fun hne => absurd hp hne⟩
      simp [hp]
  | fetchSettled n settled =>
    rcases hinv with ⟨hp, _⟩ | ⟨task, hp, hd⟩
    · simp [step, hp] at hstep
    · cases n with
      | succ m => simp [step, hp] at hstep
      | zero =>
        by_cases hph : task.phase = .fetch
        · simp only [step, hp, List.get?, hph, if_true, Option.some.injEq] at hstep
          rcases tryCatchFinally_afterFetch settled w with hs | ⟨v, hs, hvp, hvr, _, hvd, _⟩
          · rw [hs] at hstep
            subst hstep
            refine ⟨Or.inr ⟨{ task with phase := .json }, ?_, hd⟩, fun _ => rfl⟩
            simp [resume, hp]
          · rw [hs] at hstep
            subst hstep
            refine ⟨Or.inl ⟨?_, hvd⟩, fun _ => hvr⟩
            simp [resume, hvp, hp]
        · simp [step, hp, hph] at hstep
  | jsonSettled n settled =>
    rcases hinv with ⟨hp, _⟩ | ⟨task, hp, hd⟩
    · simp [step, hp] at hstep
    · cases n with
      | succ m => simp [step, hp] at hstep
      | zero =>
        by_cases hph : task.phase = .json
        · simp only [step, hp, List.get?, hph, if_true, Option.some.injEq] at hstep
          obtain ⟨v, hs, hvp, hvr, _, hvd, _⟩ := tryCatchFinally_afterJson settled w
          rw [hs] at hstep
          subst hstep
          refine ⟨Or.inl ⟨?_, hvd⟩, fun _ => hvr⟩
          simp [resume, hvp, hp]
        · simp [step, hp, hph] at hstep

/-- A sequence of events that respects the disabled control keeps `SingleFlight`. -/
theorem singleFlight_run (inputs : List Input) (w₀ w : World) (hinv : SingleFlight w₀)
    (hg : gated w₀ inputs = true) (hrun : run w₀ inputs = some w) : SingleFlight w := by
  induction inputs generalizing w₀ with
  | nil =>
    simp only [run, Option.some.injEq] at hrun
    subst hrun
    exact hinv
  | cons i rest ih =>
    cases hstep : step w₀ i with
    | none => simp [run, hstep] at hrun
    | some w₁ =>
      have hg1 : gated w₀ [i] = true := by
        cases i <;> simp_all [gated]
      have hg2 : gated w₁ rest = true := by
        cases i <;> simp_all [gated]
      have hrun' : run w₁ rest = some w := by
        simpa [run, hstep] using hrun
      exact ih w₁ (singleFlight_step w₀ w₁ i hinv hg1 hstep).1 hg2 hrun'

/-- With an empty trimmed text there is no request to settle. -/
theorem submissionCycle_eq_none (raw : String) (o : Outcome) (w : World) (h : trim raw = "") :
    submissionCycle raw o w = none := by
  cases o with
  | fetchRejected e => simp [submissionCycle, settlements, run, step, onSubmit, h]
  | responded response body =>
    by_cases hok : response.ok = true <;>
      simp [submissionCycle, settlements, run, step, onSubmit, h, hok]

/-- The trimmed text is empty exactly when every character is white space. -/
theorem trim_eq_empty_iff (s : String) :
    trim s = "" ↔ ∀ c ∈ s.data, isWhiteSpace c = true := by
  have hmk : ∀ l : List Char, (String.mk l = "") ↔ l = [] := by
    intro l
    constructor
    · intro hl
      have := congrArg String.data hl
      simpa using this
    · intro hl
      subst hl
      rfl
  unfold trim
  rw [hmk, List.reverse_eq_nil_iff, List.dropWhile_eq_nil_iff]
  constructor
  · intro hall c hc
    by_contra hws
    have hne : s.data.dropWhile isWhiteSpace ≠ [] := by
      intro hnil
      rw [List.dropWhile_eq_nil_iff] at hnil
      exact hws (hnil c hc)
    obtain ⟨x, xs, hx⟩ := List.exists_cons_of_ne_nil hne
    have hhead : isWhiteSpace x = false := by
      have := List.head_dropWhile_not isWhiteSpace s.data hne
      simpa [hx] using this
    have hmem : x ∈ (s.data.dropWhile isWhiteSpace).reverse := by
      rw [hx]
      simp
    rw [hall x hmem] at hhead
    exact Bool.noConfusion hhead
  · intro hall c hc
    have hc' : c ∈ s.data.dropWhile isWhiteSpace := List.mem_reverse.mp hc
    exact hall c ((List.dropWhile_sublist _).subset hc')

end ScratchConverter

/-! ## Properties of the submit handler -/

namespace ScratchConverter

/-- C1: when the trimmed text of the field is empty, the submit handler changes
nothing in the page: no transcript entry, no request, the field keeps its
value, the control keeps its disabled flag (the whole state is the same). -/
theorem blank_submit_changes_nothing (w : World) (raw : String) (e : SubmitEvent)
    (h : trim raw = "") :
    (onSubmit e { w with messageInput.value := raw }).2 = { w with messageInput.value := raw }
      ∧ run w [.type raw, .submit] = some { w with messageInput.value := raw } := by
  constructor
  · simp [onSubmit, h]
  · simp [run, step, onSubmit, h]

/-- An instance of C1: blanks and a tab on the empty page. -/
theorem blank_submit_changes_nothing_witness :
    trim " \t " = ""
      ∧ (onSubmit ⟨false⟩ { emptyWorld with messageInput.value := " \t " }).2
          = { emptyWorld with messageInput.value := " \t " }
      ∧ run emptyWorld [.type " \t ", .submit]
          = some { emptyWorld with messageInput.value := " \t " } :=
  ⟨by decide, blank_submit_changes_nothing emptyWorld " \t " ⟨false⟩ (by decide)⟩

/-- C5: with a non-empty trimmed text `t`, the handler parks at `await fetch`
in a state whose transcript is the prior one plus the one entry (`t`, user),
whose text field is empty and whose control is disabled; the request is made
and not yet settled. -/
theorem request_issued_state (w : World) (raw : String) (h : trim raw ≠ "") :
    ∃ w', run w [.type raw, .submit] = some w'
      ∧ w'.chatContainer.children = w.chatContainer.children ++ [messageElement (trim raw) "user"]
      ∧ w'.messageInput.value = ""
      ∧ w'.sendButton.disabled = true
      ∧ w'.pending = w.pending ++ [{ userMessage := trim raw, phase := .fetch }]
      ∧ w'.requests = w.requests ++ [chatRequest (trim raw)] := by
  have hs := onSubmit_of_trim_ne ⟨false⟩ { w with messageInput.value := raw } h
  refine ⟨(onSubmit ⟨false⟩ { w with messageInput.value := raw }).2, ?_, ?_, ?_, ?_, ?_, ?_⟩
  · simp [run, step]
  · rw [hs]
  · rw [hs]
  · rw [hs]
  · rw [hs]
  · rw [hs]

/-- An instance of C5 on the empty page. -/
theorem request_issued_state_witness :
    trim " hi " ≠ "" ∧ ∃ w', run emptyWorld [.type " hi ", .submit] = some w'
      ∧ w'.chatContainer.children
          = emptyWorld.chatContainer.children ++ [messageElement (trim " hi ") "user"]
      ∧ w'.messageInput.value = ""
      ∧ w'.sendButton.disabled = true
      ∧ w'.pending = emptyWorld.pending ++ [{ userMessage := trim " hi ", phase := .fetch }]
      ∧ w'.requests = emptyWorld.requests ++ [chatRequest (trim " hi ")] :=
  ⟨by decide, request_issued_state emptyWorld " hi " (by decide)⟩

/-- C4: with a non-empty trimmed text `t`, once the request has settled in any
way the transcript is the prior one followed by exactly the entry (`t`, user)
and then one entry of sender ai. -/
theorem settled_transcript (w : World) (raw : String) (o : Outcome) (h : trim raw ≠ "") :
    ∃ w' text, submissionCycle raw o w = some w'
      ∧ w'.chatContainer.children = w.chatContainer.children ++
          [messageElement (trim raw) "user", messageElement text "ai"] := by
  exact ⟨_, _, submissionCycle_eq raw o w h, rfl⟩

/-- An instance of C4: a reply on the empty page. -/
theorem settled_transcript_witness :
    trim "hi" ≠ "" ∧ ∃ w' text,
      submissionCycle "hi" (.responded ⟨200⟩ (.ok (.obj [("reply", .str "hello")]))) emptyWorld
          = some w'
      ∧ w'.chatContainer.children = emptyWorld.chatContainer.children ++
          [messageElement (trim "hi") "user", messageElement text "ai"] :=
  ⟨by decide, settled_transcript emptyWorld "hi" _ (by decide)⟩

/-- C2, as stated, fails: a 200 response whose body is the object without
members ends in one ai entry with empty text; no fallback entry is shown. -/
theorem memberless_body_shows_empty_text :
    (submissionCycle "hi" (.responded ⟨200⟩ (.ok (.obj []))) emptyWorld).map
        (fun w => w.chatContainer.children)
      = some [messageElement "hi" "user", messageElement "" "ai"]
    ∧ messageElement fallbackText "ai" ∉ [messageElement "hi" "user", messageElement "" "ai"] := by
  decide

/-- C2, amended: for a success status and a body that parses, the cycle ends
with exactly one ai entry after the user entry. Its text is the fallback only
when reading `reply` throws (the body is `null`) or rendering the reply throws;
when the body has no `reply` member (for example the object without members)
the text is empty; otherwise it is the rendering of the reply. -/
theorem parsed_body_entry (w : World) (raw : String) (response : Response) (data : Json)
    (h : trim raw ≠ "") (hok : response.ok = true) :
    ∃ w' text, submissionCycle raw (.responded response (.ok data)) w = some w'
      ∧ w'.chatContainer.children = w.chatContainer.children ++
          [messageElement (trim raw) "user", messageElement text "ai"]
      ∧ (data = .null → text = fallbackText)
      ∧ (getProperty data "reply" = .ok none → text = "")
      ∧ (∀ v s, getProperty data "reply" = .ok (some v) → toTextContent (some v) = .ok s →
          text = s)
      ∧ (∀ v e, getProperty data "reply" = .ok (some v) → toTextContent (some v) = .error e →
          text = fallbackText) := by
  refine ⟨_, _, submissionCycle_eq raw _ w h, rfl, ?_, ?_, ?_, ?_⟩
  · intro hd
    simp [Outcome.shown, hok, hd, getProperty]
  · intro hp
    simp [Outcome.shown, hok, hp, toTextContent]
  · intro v s hp ht
    simp [Outcome.shown, hok, hp, ht]
  · intro v e hp ht
    simp [Outcome.shown, hok, hp, ht]

/-- An instance of the amended C2: the object without members. -/
theorem parsed_body_entry_witness :
    trim "hi" ≠ "" ∧ Response.ok ⟨200⟩ = true ∧
    ∃ w' text, submissionCycle "hi" (.responded ⟨200⟩ (.ok (.obj []))) emptyWorld = some w'
      ∧ w'.chatContainer.children = emptyWorld.chatContainer.children ++
          [messageElement (trim "hi") "user", messageElement text "ai"]
      ∧ (Json.obj [] = .null → text = fallbackText)
      ∧ (getProperty (.obj []) "reply" = .ok none → text = "")
      ∧ (∀ v s, getProperty (.obj []) "reply" = .ok (some v) → toTextContent (some v) = .ok s →
          text = s)
      ∧ (∀ v e, getProperty (.obj []) "reply" = .ok (some v) → toTextContent (some v) = .error e →
          text = fallbackText) :=
  ⟨by decide, by decide, parsed_body_entry emptyWorld "hi" ⟨200⟩ (.obj []) (by decide) (by decide)⟩

/-- C7: with a non-empty trimmed text, every failure of the request (rejected
`fetch`, a status outside 200 to 299, rejected `response.json()`) ends the
cycle with the fallback entry of sender ai last; the widget (transcript, text
field, control, focus) is the same for any two failures; no error leaves the
handler. -/
theorem failure_shows_fallback (w : World) (raw : String) (o o' : Outcome)
    (h : trim raw ≠ "") (hf : o.isFailure = true) (hf' : o'.isFailure = true) :
    ∃ w₁ w₂, submissionCycle raw o w = some w₁ ∧ submissionCycle raw o' w = some w₂
      ∧ w₁.chatContainer.children = w.chatContainer.children ++
          [messageElement (trim raw) "user", messageElement fallbackText "ai"]
      ∧ w₁.chatContainer = w₂.chatContainer
      ∧ w₁.messageInput = w₂.messageInput
      ∧ w₁.sendButton = w₂.sendButton
      ∧ w₁.activeElement = w₂.activeElement
      ∧ w₁.uncaught = w.uncaught := by
  have key : ∀ p : Outcome, p.isFailure = true → ∃ e, p.shown = .error e := by
    intro p hp
    cases p with
    | fetchRejected e => exact ⟨e, rfl⟩
    | responded response body =>
      by_cases hok : response.ok = true
      · cases body with
        | error e => exact ⟨e, by simp [Outcome.shown, hok]⟩
        | ok data => simp [Outcome.isFailure, hok] at hp
      · exact ⟨.error ("HTTP error! status: " ++ toString response.status),
          by simp [Outcome.shown, hok]⟩
  obtain ⟨e, he⟩ := key o hf
  obtain ⟨e', he'⟩ := key o' hf'
  refine ⟨_, _, submissionCycle_eq raw o w h, submissionCycle_eq raw o' w h, ?_, ?_, rfl, rfl,
    rfl, rfl⟩
  · simp [settledWorld, he]
  · simp [settledWorld, he, he']

/-- An instance of C7: status 500 and a rejected `fetch`. -/
theorem failure_shows_fallback_witness :
    trim "hi" ≠ "" ∧
    ∃ w₁ w₂, submissionCycle "hi" (.responded ⟨500⟩ (.ok .null)) emptyWorld = some w₁
      ∧ submissionCycle "hi" (.fetchRejected (.rejection "Failed to fetch")) emptyWorld = some w₂
      ∧ w₁.chatContainer.children = emptyWorld.chatContainer.children ++
          [messageElement (trim "hi") "user", messageElement fallbackText "ai"]
      ∧ w₁.chatContainer = w₂.chatContainer
      ∧ w₁.messageInput = w₂.messageInput
      ∧ w₁.sendButton = w₂.sendButton
      ∧ w₁.activeElement = w₂.activeElement
      ∧ w₁.uncaught = emptyWorld.uncaught :=
  ⟨by decide, failure_shows_fallback emptyWorld "hi" (.responded ⟨500⟩ (.ok .null))
    (.fetchRejected (.rejection "Failed to fetch")) (by decide) (by decide) (by decide)⟩

/-- C8: with a non-empty trimmed text, a success status and a parsed body whose
`reply` is the string `r`, the cycle ends with the entry (`r`, ai) last, right
after the user entry; the `catch` block does not run. -/
theorem reply_is_shown (w : World) (raw : String) (response : Response) (data : Json)
    (r : String) (h : trim raw ≠ "") (hok : response.ok = true)
    (hr : getProperty data "reply" = .ok (some (.str r))) :
    ∃ w', submissionCycle raw (.responded response (.ok data)) w = some w'
      ∧ w'.chatContainer.children = w.chatContainer.children ++
          [messageElement (trim raw) "user", messageElement r "ai"]
      ∧ w'.console = w.console := by
  refine ⟨_, submissionCycle_eq raw _ w h, ?_, ?_⟩ <;>
    simp [settledWorld, Outcome.shown, hok, hr, toTextContent, Json.toJsString]

/-- An instance of C8: a reply next to another member. -/
theorem reply_is_shown_witness :
    trim "hi" ≠ "" ∧ Response.ok ⟨200⟩ = true ∧
    ∃ w', submissionCycle "hi"
        (.responded ⟨200⟩ (.ok (.obj [("reply", .str "hello"), ("model", .num "4")]))) emptyWorld
          = some w'
      ∧ w'.chatContainer.children = emptyWorld.chatContainer.children ++
          [messageElement (trim "hi") "user", messageElement "hello" "ai"]
      ∧ w'.console = emptyWorld.console :=
  ⟨by decide, by decide, reply_is_shown emptyWorld "hi" ⟨200⟩
    (.obj [("reply", .str "hello"), ("model", .num "4")]) "hello" (by decide) (by decide) rfl⟩

/-- C6: with a non-empty trimmed text `t`, one submission adds exactly one
request to the requests made, whatever the outcome: a POST to `chat` with the
header Content-Type: application/json and the body `stringifyMessage t`, which
reads back as the object whose single member `message` is `t`, the text of the
user entry. -/
theorem one_request_per_submission (w : World) (raw : String) (o : Outcome)
    (h : trim raw ≠ "") :
    ∃ w', submissionCycle raw o w = some w'
      ∧ w'.requests = w.requests ++
          [{ url := "chat", method := "POST",
             headers := [("Content-Type", "application/json")],
             body := stringifyMessage (trim raw) }]
      ∧ readMessageBody (stringifyMessage (trim raw)) = some (trim raw)
      ∧ w'.chatContainer.children.get? w.chatContainer.children.length
          = some (messageElement (trim raw) "user") := by
  refine ⟨_, submissionCycle_eq raw o w h, rfl, readMessageBody_stringifyMessage _, ?_⟩
  simp only [settledWorld]
  rw [List.get?_eq_getElem?, List.getElem?_append_right (Nat.le_refl _)]
  simp

/-- An instance of C6: a text with quotes, `fetch` rejected. -/
theorem one_request_per_submission_witness :
    trim " say \"hi\" " ≠ "" ∧
    ∃ w', submissionCycle " say \"hi\" " (.fetchRejected (.rejection "offline")) emptyWorld
          = some w'
      ∧ w'.requests = emptyWorld.requests ++
          [{ url := "chat", method := "POST",
             headers := [("Content-Type", "application/json")],
             body := stringifyMessage (trim " say \"hi\" ") }]
      ∧ readMessageBody (stringifyMessage (trim " say \"hi\" ")) = some (trim " say \"hi\" ")
      ∧ w'.chatContainer.children.get? emptyWorld.chatContainer.children.length
          = some (messageElement (trim " say \"hi\" ") "user") :=
  ⟨by decide, one_request_per_submission emptyWorld " say \"hi\" "
    (.fetchRejected (.rejection "offline")) (by decide)⟩

/-- C9: a submission cycle takes place exactly when the trimmed text is not
empty, and whatever the input and the outcome of the request, the state at the
end of the cycle has the control enabled and the focus on the text field. The
same holds in any page state for any event that ends a parked invocation. -/
theorem cycle_ends_enabled_and_focused (w : World) (raw : String) (o : Outcome) :
    ((submissionCycle raw o w).isSome = true ↔ trim raw ≠ "")
      ∧ (∀ w', submissionCycle raw o w = some w' →
          w'.sendButton.disabled = false ∧ w'.activeElement = .messageInput)
      ∧ (∀ i w', step w i = some w' → w'.pending.length < w.pending.length →
          w'.sendButton.disabled = false ∧ w'.activeElement = .messageInput) := by
  refine ⟨?_, ?_, fun i w' hstep hlt => step_end_enabled w w' i hstep hlt⟩
  · by_cases h : trim raw = ""
    · simp [submissionCycle_eq_none raw o w h, h]
    · simp [submissionCycle_eq raw o w h, h]
  · intro w' hw
    by_cases h : trim raw = ""
    · simp [submissionCycle_eq_none raw o w h] at hw
    · rw [submissionCycle_eq raw o w h] at hw
      simp only [Option.some.injEq] at hw
      subst hw
      exact ⟨rfl, rfl⟩

/-- An instance of C9: status 503 with the focus on the control. -/
theorem cycle_ends_enabled_and_focused_witness :
    submissionCycle "hi" (.responded ⟨503⟩ (.ok .null))
        { emptyWorld with activeElement := .sendButton }
      = some (settledWorld { emptyWorld with activeElement := .sendButton } "hi"
          (.error (.error "HTTP error! status: 503")))
    ∧ (settledWorld { emptyWorld with activeElement := .sendButton } "hi"
          (.error (.error "HTTP error! status: 503"))).sendButton.disabled = false
    ∧ (settledWorld { emptyWorld with activeElement := .sendButton } "hi"
          (.error (.error "HTTP error! status: 503"))).activeElement = .messageInput :=
  ⟨by decide, (cycle_ends_enabled_and_focused { emptyWorld with activeElement := .sendButton }
    "hi" (.responded ⟨503⟩ (.ok .null))).2.1 _ (by decide)⟩

/-- C10: with a non-empty trimmed text `t`, two cycles with the same text, the
second started after the first is over, extend the transcript by the four
entries user `t`, ai, user `t`, ai in this order; the ai entry of the second
cycle is the one its outcome gives on the original page. -/
theorem same_text_twice (w : World) (raw : String) (o₁ o₂ : Outcome) (h : trim raw ≠ "") :
    ∃ w₁ w₂ a₁ a₂, submissionCycle raw o₁ w = some w₁
      ∧ submissionCycle raw o₂ w₁ = some w₂
      ∧ w₁.chatContainer.children = w.chatContainer.children ++
          [messageElement (trim raw) "user", messageElement a₁ "ai"]
      ∧ w₂.chatContainer.children = w.chatContainer.children ++
          [messageElement (trim raw) "user", messageElement a₁ "ai",
           messageElement (trim raw) "user", messageElement a₂ "ai"]
      ∧ ∃ v, submissionCycle raw o₂ w = some v
          ∧ v.chatContainer.children = w.chatContainer.children ++
              [messageElement (trim raw) "user", messageElement a₂ "ai"] := by
  refine ⟨_, _, _, _, submissionCycle_eq raw o₁ w h, submissionCycle_eq raw o₂ _ h, rfl, ?_,
    _, submissionCycle_eq raw o₂ w h, rfl⟩
  simp [settledWorld]

/-- An instance of C10: a reply, then a rejected `fetch`. -/
theorem same_text_twice_witness :
    trim "hi" ≠ "" ∧
    ∃ w₁ w₂ a₁ a₂,
      submissionCycle "hi" (.responded ⟨200⟩ (.ok (.obj [("reply", .str "one")]))) emptyWorld
        = some w₁
      ∧ submissionCycle "hi" (.fetchRejected (.rejection "offline")) w₁ = some w₂
      ∧ w₁.chatContainer.children = emptyWorld.chatContainer.children ++
          [messageElement (trim "hi") "user", messageElement a₁ "ai"]
      ∧ w₂.chatContainer.children = emptyWorld.chatContainer.children ++
          [messageElement (trim "hi") "user", messageElement a₁ "ai",
           messageElement (trim "hi") "user", messageElement a₂ "ai"]
      ∧ ∃ v, submissionCycle "hi" (.fetchRejected (.rejection "offline")) emptyWorld = some v
          ∧ v.chatContainer.children = emptyWorld.chatContainer.children ++
              [messageElement (trim "hi") "user", messageElement a₂ "ai"] :=
  ⟨by decide, same_text_twice emptyWorld "hi"
    (.responded ⟨200⟩ (.ok (.obj [("reply", .str "one")])))
    (.fetchRejected (.rejection "offline")) (by decide)⟩

/-- C3, as stated, fails: the handler does not look at the control. From the
idle page, a second submit event while the first request is pending issues a
second request (two invocations parked); the first settlement then enables the
control while a request is still pending. -/
theorem ungated_submit_overlaps :
    Idle emptyWorld
    ∧ (run emptyWorld [.type "a", .submit, .type "b", .submit]).map
        (fun w => (w.pending.length, w.requests.length)) = some (2, 2)
    ∧ (run emptyWorld [.type "a", .submit, .type "b", .submit,
        .fetchSettled 0 (.error (.rejection "offline"))]).map
        (fun w => (w.pending.length, w.sendButton.disabled)) = some (1, false) :=
  ⟨⟨rfl, rfl⟩, by decide, by decide⟩

/-- C3, amended: under any sequence of page events from the idle state in which
every submit event meets the control enabled (a disabled submit control lets no
submit event through), at most one request is in flight, the control is
disabled as long as one is, and no further request is issued while one is. -/
theorem gated_single_flight (w₀ : World) (inputs : List Input) (w : World)
    (hidle : Idle w₀) (hg : gated w₀ inputs = true) (hrun : run w₀ inputs = some w) :
    w.pending.length ≤ 1
      ∧ (w.pending ≠ [] → w.sendButton.disabled = true)
      ∧ (∀ i w', gated w [i] = true → step w i = some w' → w.pending ≠ [] →
          w'.requests = w.requests) := by
  have hinv : SingleFlight w := singleFlight_run inputs w₀ w (Or.inl ⟨hidle.2, hidle.1⟩) hg hrun
  refine ⟨?_, ?_, ?_⟩
  · rcases hinv with ⟨hp, _⟩ | ⟨task, hp, _⟩ <;> simp [hp]
  · intro hne
    rcases hinv with ⟨hp, _⟩ | ⟨task, _, hd⟩
    · exact absurd hp hne
    · exact hd
  · intro i w' hgi hstep
    exact (singleFlight_step w w' i hinv hgi hstep).2

/-- An instance of the amended C3: the user types while the request is pending. -/
theorem gated_single_flight_witness :
    Idle emptyWorld
    ∧ gated emptyWorld [.type "a", .submit, .type "b", .fetchSettled 0 (.ok ⟨200⟩)] = true
    ∧ run emptyWorld [.type "a", .submit, .type "b", .fetchSettled 0 (.ok ⟨200⟩)]
        = some { emptyWorld with
            chatContainer := { children := [messageElement "a" "user"], scrolledToBottom := true }
            messageInput := { value := "b" }
            sendButton := { disabled := true }
            requests := [chatRequest "a"]
            pending := [{ userMessage := "a", phase := .json }] }
    ∧ [({ userMessage := "a", phase := .json } : Task)].length ≤ 1 :=
  ⟨⟨rfl, rfl⟩, by decide, by decide,
    (gated_single_flight emptyWorld [.type "a", .submit, .type "b", .fetchSettled 0 (.ok ⟨200⟩)]
      { emptyWorld with
        chatContainer := { children := [messageElement "a" "user"], scrolledToBottom := true }
        messageInput := { value := "b" }
        sendButton := { disabled := true }
        requests := [chatRequest "a"]
        pending := [{ userMessage := "a", phase := .json }] }
      ⟨rfl, rfl⟩ (by decide) (by decide)).1⟩

end ScratchConverter
